import Mathlib

/-!
# Verification of unmonitarr against its specification

Shallow embedding of the unmonitarr repository (`unmonitarr.py`,
`media_processors.py`, `state_manager.py`, `api_client.py`).

The embedding models:
* the release-group extractors (`get_release_group` in `unmonitarr.py` and
  `_extract_release_group` in `media_processors.py`), including a small
  backtracking regular-expression engine reproducing Python `re.search`
  semantics (leftmost match, greedy/lazy backtracking priority, IGNORECASE)
  for the exact pattern cascade appearing in the source;
* the processing state (`processed_ids`, `unmonitored_ids`,
  `processed_episode_ids`, `unmonitored_episode_ids`, `unmonitored_seasons`);
* the decision policy (`process_movie`, `process_episode`), the hierarchical
  rollup (`check_and_unmonitor_season`, `unmonitor_season`,
  `check_and_unmonitor_full_series`, `unmonitor_series_keep_seasons`,
  `process_series_hierarchical`), the monitoring-mode filter
  (`fetch_new_media`, Radarr branch), and the force-full-scan state clearing
  in `process_media`.

Remote reads (the item lists, file details, episode lists) are modelled as
data carried by the media items; remote mutations are modelled as an effect
trace plus a `remoteOk` flag giving the transport outcome of mutation calls.
-/

namespace Unmonitarr

/-! ## Basic string helpers -/

/-- Lower-casing as used by Python `str.lower()` on the ASCII file names and
group labels handled by the program. -/
def strLower (s : String) : String := String.mk (s.data.map Char.toLower)

/-- `os.path.basename`: the part of the path after the final `/`. -/
def basename (s : String) : String :=
  String.mk ((s.data.reverse.takeWhile (fun c => ¬ (c = '/'))).reverse)

/-- The root part of `os.path.splitext`: drop the final `.ext` suffix, except
that a leading run of dots never starts an extension. -/
def splitextRoot (s : String) : String :=
  let cs := s.data
  match (cs.reverse.findIdx? (fun c => c = '.')) with
  | none => s
  | some j =>
    let i := cs.length - 1 - j
    if (cs.take i).any (fun c => ¬ (c = '.')) then String.mk (cs.take i) else s

/-- Python `str.rstrip('.')`. -/
def rstripDots (s : String) : String :=
  String.mk ((s.data.reverse.dropWhile (fun c => c = '.')).reverse)

/-! ## A small backtracking regex engine

Reproduces the fragment of Python `re` used by the source: character
classes, concatenation, alternation, greedy and lazy star, one capturing
group, the `^`/`$` anchors and the `\b` word boundary, searched with
`re.search` semantics (leftmost starting position wins; within a position,
alternatives are tried left first and greedy stars longest first). -/

inductive Re where
  | eps : Re
  | sym (p : Char → Bool) : Re
  | seq (a b : Re) : Re
  | alt (a b : Re) : Re
  | star (a : Re) : Re
  | starL (a : Re) : Re
  | grp (a : Re) : Re
  | bos : Re
  | eos : Re
  | wb : Re

/-- Word character for `\b` and `\W` (`[A-Za-z0-9_]`). -/
def wordChar (c : Char) : Bool := c.isAlpha || c.isDigit || c = '_'

def wordAt (cs : List Char) (i : Nat) : Bool :=
  match cs.get? i with
  | some c => wordChar c
  | none => false

/-- All ways the expression can match starting at position `i`, as a list of
`(end position, capture span)` in Python backtracking priority order; the
head of the list is the match `re.search` reports at this position.  `fuel`
bounds the recursion depth and is chosen large enough to be exact. -/
def mrun (cs : List Char) : Nat → Re → Nat → Option (Nat × Nat) →
    List (Nat × Option (Nat × Nat))
  | 0, _, _, _ => []
  | _ + 1, Re.eps, i, cap => [(i, cap)]
  | _ + 1, Re.sym p, i, cap =>
    match cs.get? i with
    | some c => if p c then [(i + 1, cap)] else []
    | none => []
  | fuel + 1, Re.seq a b, i, cap =>
    (mrun cs fuel a i cap).flatMap (fun r => mrun cs fuel b r.1 r.2)
  | fuel + 1, Re.alt a b, i, cap =>
    mrun cs fuel a i cap ++ mrun cs fuel b i cap
  | fuel + 1, Re.star a, i, cap =>
    ((mrun cs fuel a i cap).filter (fun r => i < r.1)).flatMap
      (fun r => mrun cs fuel (Re.star a) r.1 r.2) ++ [(i, cap)]
  | fuel + 1, Re.starL a, i, cap =>
    (i, cap) :: ((mrun cs fuel a i cap).filter (fun r => i < r.1)).flatMap
      (fun r => mrun cs fuel (Re.starL a) r.1 r.2)
  | fuel + 1, Re.grp a, i, cap =>
    (mrun cs fuel a i cap).map (fun r => (r.1, some (i, r.1)))
  | _ + 1, Re.bos, i, cap => if i = 0 then [(i, cap)] else []
  | _ + 1, Re.eos, i, cap => if i = cs.length then [(i, cap)] else []
  | _ + 1, Re.wb, i, cap =>
    let prev := (if i = 0 then false else wordAt cs (i - 1))
    if prev ≠ wordAt cs i then [(i, cap)] else []

/-- `re.search` scan: try each start position from the left; at the first
position with a match, report that match's capture span. -/
def searchAux (cs : List Char) (fuel : Nat) (r : Re) :
    Nat → Nat → Option (Option (Nat × Nat))
  | i, k =>
    match mrun cs fuel r i none with
    | (_, cap) :: _ => some cap
    | [] =>
      match k with
      | 0 => none
      | k + 1 => searchAux cs fuel r (i + 1) k

/-- `re.search(pattern, s).group(1)` as an `Option String`: `none` when the
pattern does not match anywhere. -/
def searchCap (r : Re) (s : String) : Option String :=
  let cs := s.data
  let fuel := (cs.length + 16) * 64
  match searchAux cs fuel r 0 cs.length with
  | none => none
  | some none => none
  | some (some (a, b)) => some (String.mk ((cs.drop a).take (b - a)))

/-! ### Pattern constructors -/

def rchar (c : Char) : Re := Re.sym (fun x => x = c)

/-- A literal character under `re.IGNORECASE`. -/
def rcharI (c : Char) : Re := Re.sym (fun x => x.toLower = c.toLower)

/-- A literal string under `re.IGNORECASE`. -/
def rlitI (s : String) : Re := (s.data.map rcharI).foldr Re.seq Re.eps

def rcat (l : List Re) : Re := l.foldr Re.seq Re.eps

def raltL (l : List Re) : Re := l.foldr Re.alt (Re.sym (fun _ => false))

def rplus (a : Re) : Re := Re.seq a (Re.star a)

/-- `{2,}`: at least two repetitions, greedy. -/
def rrep2 (a : Re) : Re := Re.seq a (Re.seq a (Re.star a))

def ropt (a : Re) : Re := Re.alt a Re.eps

/-- `[A-Za-z0-9]` -/
def clsAlnum : Re := Re.sym (fun c => c.isAlpha || c.isDigit)

/-- `[A-Za-z0-9._-]` -/
def clsDotted : Re := Re.sym (fun c => c.isAlpha || c.isDigit || c = '.' || c = '_' || c = '-')

/-- `[A-Za-z0-9_-]` -/
def clsUnder : Re := Re.sym (fun c => c.isAlpha || c.isDigit || c = '_' || c = '-')

/-- Python `\s`. -/
def wsChar (c : Char) : Bool :=
  c = ' ' || c = '\t' || c = '\n' || c = '\r' || c = '\x0b' || c = '\x0c'

/-- Any character (Python `.`, no DOTALL). -/
def rdot : Re := Re.sym (fun c => ¬ (c = '\n'))

/-! ### The eleven patterns of `get_release_group` (unmonitarr.py), in
source order. -/

/-- `-([A-Za-z0-9._-]+)$` -/
def grgPat1 : Re := rcat [rchar '-', Re.grp (rplus clsDotted), Re.eos]

/-- `\[([A-Za-z0-9._-]+)\]$` -/
def grgPat2 : Re := rcat [rchar '[', Re.grp (rplus clsDotted), rchar ']', Re.eos]

/-- `\.([A-Za-z0-9_-]{2,})$` -/
def grgPat3 : Re := rcat [rchar '.', Re.grp (rrep2 clsUnder), Re.eos]

/-- `\][\s]*-[\s]*([A-Za-z0-9._-]+)$` -/
def grgPat4 : Re :=
  rcat [rchar ']', Re.star (Re.sym wsChar), rchar '-', Re.star (Re.sym wsChar),
    Re.grp (rplus clsDotted), Re.eos]

/-- Quality keywords: `(?:480p|720p|...|bd100)(?:\.[^.]+)*\.([A-Za-z0-9_-]{2,})$` -/
def grgPat5 : Re :=
  rcat [raltL (["480p", "720p", "1080p", "2160p", "4k", "bluray", "web-dl",
      "webrip", "hdtv", "xvid", "aac", "ac3", "dts", "bd5", "bd9", "bd25",
      "bd50", "bd66", "bd100"].map rlitI),
    Re.star (Re.seq (rchar '.') (rplus (Re.sym (fun c => ¬ (c = '.'))))),
    rchar '.', Re.grp (rrep2 clsUnder), Re.eos]

/-- `(?:x264|x265|h264|h265|hevc|xvid)[\s.]*-[\s.]*([A-Za-z0-9._-]+)(?:\..*)?$` -/
def grgPat6 : Re :=
  rcat [raltL (["x264", "x265", "h264", "h265", "hevc", "xvid"].map rlitI),
    Re.star (Re.sym (fun c => wsChar c || c = '.')), rchar '-',
    Re.star (Re.sym (fun c => wsChar c || c = '.')),
    Re.grp (rplus clsDotted), ropt (Re.seq (rchar '.') (Re.star rdot)), Re.eos]

/-- `\][\s]*-[\s]*([A-Za-z0-9._-]+)(?:\..*)?$` -/
def grgPat7 : Re :=
  rcat [rchar ']', Re.star (Re.sym wsChar), rchar '-', Re.star (Re.sym wsChar),
    Re.grp (rplus clsDotted), ropt (Re.seq (rchar '.') (Re.star rdot)), Re.eos]

/-- `(?:480p|720p|1080p|2160p)\.([A-Za-z0-9._-]{2,})$` -/
def grgPat8 : Re :=
  rcat [raltL (["480p", "720p", "1080p", "2160p"].map rlitI),
    rchar '.', Re.grp (rrep2 clsDotted), Re.eos]

/-- `\.([A-Za-z0-9]{2,})$` -/
def grgPat9 : Re := rcat [rchar '.', Re.grp (rrep2 clsAlnum), Re.eos]

/-- `(?:[\.\s\[\]\(\)\-]|^)([A-Za-z0-9]{2,})$` -/
def grgPat10 : Re :=
  rcat [Re.alt (Re.sym (fun c => c = '.' || wsChar c || c = '[' || c = ']' ||
      c = '(' || c = ')' || c = '-')) Re.bos,
    Re.grp (rrep2 clsAlnum), Re.eos]

/-- `(?:\.|\-|\[|\s)((?:AMIABLE|SPARKS|GECKOS|DRONES|EVO|YIFY|YTS|RARBG)\b.*?)(?:\.|\]|\[|\-|$)` -/
def grgScenePat : Re :=
  rcat [raltL [rchar '.', rchar '-', rchar '[', Re.sym wsChar],
    Re.grp (rcat [raltL (["AMIABLE", "SPARKS", "GECKOS", "DRONES", "EVO",
        "YIFY", "YTS", "RARBG"].map rlitI), Re.wb, Re.starL rdot]),
    raltL [rchar '.', rchar ']', rchar '[', rchar '-', Re.eos]]

/-- The dictionary scanned by the common-groups loop. -/
def grgCommonGroups : List String :=
  ["yts", "yify", "rarbg", "ettv", "eztv", "ctrlhd", "ntb", "web", "web-dl"]

/-- `(?:^|\W)(g)(?:$|\W)` for one dictionary entry `g`. -/
def grgCommonPat (g : String) : Re :=
  rcat [Re.alt Re.bos (Re.sym (fun c => ¬ wordChar c)), Re.grp (rlitI g),
    Re.alt Re.eos (Re.sym (fun c => ¬ wordChar c))]

/-- `-\s*([A-Za-z0-9]+(?: [A-Za-z0-9]+)+)` (compiled without IGNORECASE). -/
def grgSpacePat : Re :=
  rcat [rchar '-', Re.star (Re.sym wsChar),
    Re.grp (rcat [rplus clsAlnum, rplus (Re.seq (rchar ' ') (rplus clsAlnum))])]

/-! ### The extractors as ordered rule cascades -/

/-- First-match-wins combinator over an ordered rule list. -/
def firstSome (rules : List (String → Option String)) (s : String) : Option String :=
  rules.findSome? (fun f => f s)

/-- The ordered rule list of `get_release_group`: the eleven-pattern loop
(whose match is `rstrip('.')`-ed), then the scene pattern, then the
common-groups dictionary loop, then the multi-word space pattern. -/
def grgRules : List (String → Option String) :=
  ([grgPat1, grgPat2, grgPat3, grgPat4, grgPat5, grgPat6, grgPat7, grgPat8,
    grgPat9, grgPat10].map (fun p => fun s => (searchCap p s).map rstripDots)) ++
  [fun s => searchCap grgScenePat s,
   fun s => grgCommonGroups.findSome? (fun g => searchCap (grgCommonPat g) s),
   fun s => searchCap grgSpacePat s]

/-- `get_release_group(file_path, config)` from `unmonitarr.py` (the `config`
argument only controls debug logging): basename, extension stripped, then the
rule cascade, first match wins. -/
def get_release_group (path : String) : Option String :=
  firstSome grgRules (splitextRoot (basename path))

/-! ### `_extract_release_group` (media_processors.py) -/

/-- `-([A-Za-z0-9]+)$` -/
def mpPat1 : Re := rcat [rchar '-', Re.grp (rplus clsAlnum), Re.eos]

/-- `\[([A-Za-z0-9]+)\]$` -/
def mpPat2 : Re := rcat [rchar '[', Re.grp (rplus clsAlnum), rchar ']', Re.eos]

/-- `\.([A-Za-z0-9]+)(?:\.|$)` -/
def mpPat3 : Re :=
  rcat [rchar '.', Re.grp (rplus clsAlnum), Re.alt (rchar '.') Re.eos]

/-- `(?:^|\.)([A-Za-z0-9]+)-[^-]+$` -/
def mpPat4 : Re :=
  rcat [Re.alt Re.bos (rchar '.'), Re.grp (rplus clsAlnum), rchar '-',
    rplus (Re.sym (fun c => ¬ (c = '-'))), Re.eos]

def mpRules : List (String → Option String) :=
  [mpPat1, mpPat2, mpPat3, mpPat4].map (fun p => fun s => searchCap p s)

/-- `_extract_release_group(file_path)` from `media_processors.py`: the four
patterns are searched against `os.path.basename(file_path)` — the extension
is NOT stripped — first match wins. -/
def extract_release_group (path : String) : Option String :=
  firstSome mpRules (basename path)

/-- Modelled from the spec: the variant of `_extract_release_group` the spec
describes, whose "filename is taken from the path, extension stripped"
before the same four pattern rules are tried.  Used only to compare the
spec's words against the implemented `extract_release_group`. -/
def extract_release_group_stripped (path : String) : Option String :=
  firstSome mpRules (splitextRoot (basename path))

/-- Python truthiness of an optional string (`if release_group:`): an empty
string is falsy. -/
def truthy (o : Option String) : Option String :=
  match o with
  | some g => if g = "" then none else some g
  | none => none

/-! ## Processing state

The per-service sections of the state file.  Python keeps the id
collections as JSON lists, appending at the end; membership checks guard
most appends. -/

/-- A remote mutation call issued over HTTP (`requests.put`). -/
inductive Effect where
  | moviePut (id : Nat) : Effect
  | episodePut (id : Nat) : Effect
  | seasonPut (seriesId seasonNumber : Nat) : Effect
  | seriesPut (id : Nat) : Effect
deriving DecidableEq, Repr

/-- `state['radarr']`. -/
structure RadarrState where
  processed_ids : List Nat
  unmonitored_ids : List Nat
deriving DecidableEq, Repr

/-- `state['sonarr']`; `unmonitored_seasons` is the dict keyed by series id. -/
structure SonarrState where
  processed_ids : List Nat
  processed_episode_ids : List Nat
  unmonitored_ids : List Nat
  unmonitored_episode_ids : List Nat
  unmonitored_seasons : List (Nat × List Nat)
deriving DecidableEq, Repr

/-- The guarded append `if x not in l: l.append(x)`. -/
def addIfAbsent (x : Nat) (l : List Nat) : List Nat :=
  if x ∈ l then l else l ++ [x]

/-- `state['sonarr']['unmonitored_seasons'].get(series_id, [])` (the model
keeps the dict as an insertion-ordered association list with unique keys). -/
def lookupSeasons : List (Nat × List Nat) → Nat → List Nat
  | [], _ => []
  | p :: rest, sid => if p.1 = sid then p.2 else lookupSeasons rest sid

/-- `series_id in state['sonarr']['unmonitored_seasons']`. -/
def hasKey : List (Nat × List Nat) → Nat → Bool
  | [], _ => false
  | p :: rest, sid => p.1 = sid || hasKey rest sid

/-- `if series_id not in ...: ...[series_id] = []`. -/
def ensureKey (m : List (Nat × List Nat)) (sid : Nat) : List (Nat × List Nat) :=
  if hasKey m sid then m else m ++ [(sid, [])]

/-- Ensure the key exists, then guarded-append the season number: update the
entry in place, or append a fresh `(sid, [n])` entry at the end. -/
def addSeasonNum : List (Nat × List Nat) → Nat → Nat → List (Nat × List Nat)
  | [], sid, n => [(sid, [n])]
  | p :: rest, sid, n =>
    if p.1 = sid then (p.1, addIfAbsent n p.2) :: rest
    else p :: addSeasonNum rest sid n

def markMovieProcessed (st : RadarrState) (mid : Nat) : RadarrState :=
  { st with processed_ids := addIfAbsent mid st.processed_ids }

def addMovieUnmonitored (st : RadarrState) (mid : Nat) : RadarrState :=
  { st with unmonitored_ids := addIfAbsent mid st.unmonitored_ids }

/-! ## Radarr: the movie decision policy (`process_movie`, unmonitarr.py) -/

/-- A movie as `process_movie` sees it: the fetched item together with the
file list `get_file_details` returns for it (each file's `path` key if
present), and the dates `fetch_new_media` inspects. -/
structure MovieItem where
  id : Nat
  monitored : Bool
  added : Option Nat
  fileDateAdded : Option Nat
  files : List (Option String)
deriving DecidableEq, Repr

/-- The `for file in files:` loop of `process_movie`, together with the
trailing `processed_ids` append that runs when the loop falls through.  A
successful (or dry-run-simulated) unmonitor returns `true` immediately; a
failed mutation continues with the next file. -/
def movieFileLoop (dryRun remoteOk : Bool) (targets : List String) (mid : Nat) :
    List (Option String) → RadarrState → Bool × RadarrState × List Effect
  | [], st => (false, markMovieProcessed st mid, [])
  | f :: rest, st =>
    match f with
    | none => movieFileLoop dryRun remoteOk targets mid rest st
    | some p =>
      match truthy (get_release_group p) with
      | none => movieFileLoop dryRun remoteOk targets mid rest st
      | some g =>
        if strLower g ∈ targets then
          let st1 := markMovieProcessed st mid
          if dryRun then (true, addMovieUnmonitored st1 mid, [])
          else if remoteOk then
            (true, addMovieUnmonitored st1 mid, [Effect.moviePut mid])
          else
            let r := movieFileLoop dryRun remoteOk targets mid rest st1
            (r.1, r.2.1, Effect.moviePut mid :: r.2.2)
        else movieFileLoop dryRun remoteOk targets mid rest st

/-- `process_movie(item, config, target_groups, state)` from unmonitarr.py.
`targets` is the pre-lowercased `target_groups`; `dryRun` is
`config['dry_run']`; `remoteOk` is whether the `PUT` of `unmonitor_media`
succeeds.  Returns (return value, new state, issued mutation calls). -/
def process_movie (dryRun remoteOk : Bool) (targets : List String)
    (item : MovieItem) (st : RadarrState) : Bool × RadarrState × List Effect :=
  if item.id ∈ st.unmonitored_ids then (false, st, [])
  else if ¬ item.monitored then
    (false,
     { st with unmonitored_ids := addIfAbsent item.id st.unmonitored_ids,
               processed_ids := addIfAbsent item.id st.processed_ids }, [])
  else movieFileLoop dryRun remoteOk targets item.id item.files st

/-- The date test of the Radarr branch of `fetch_new_media`: include the
item when its `added` date or its file's `dateAdded` is after the last
scan. -/
def fetchIncludeMovie (lastScan : Nat) (item : MovieItem) : Bool :=
  (match item.added with | some d => lastScan < d | none => false) ||
  (match item.fileDateAdded with | some d => lastScan < d | none => false)

/-- The Radarr branch of `fetch_new_media(config, state, last_scan)`:
filters the fetched movie list, recording items that are already
unmonitored upstream into `unmonitored_ids` (without touching
`processed_ids`) and skipping them. -/
def fetch_new_media_radarr (lastScan : Nat) :
    List MovieItem → RadarrState → List MovieItem × RadarrState
  | [], st => ([], st)
  | item :: rest, st =>
    if item.id ∈ st.unmonitored_ids then fetch_new_media_radarr lastScan rest st
    else if ¬ item.monitored then
      fetch_new_media_radarr lastScan rest
        { st with unmonitored_ids := addIfAbsent item.id st.unmonitored_ids }
    else
      let keep := fetchIncludeMovie lastScan item || ¬ (item.id ∈ st.processed_ids)
      let r := fetch_new_media_radarr lastScan rest st
      (if keep then item :: r.1 else r.1, r.2)

/-- A monitoring-mode Radarr scan (`process_media_radarr` with
`monitoring_mode=True`, sequential path): `fetch_new_media` then
`process_movie` on each returned item. -/
def radarrScanMonitoring (dryRun remoteOk : Bool) (targets : List String)
    (lastScan : Nat) (movies : List MovieItem) (st : RadarrState) :
    RadarrState × List Effect :=
  let fr := fetch_new_media_radarr lastScan movies st
  fr.1.foldl (fun acc m =>
      let r := process_movie dryRun remoteOk targets m acc.1
      (r.2.1, acc.2 ++ r.2.2)) (fr.2, [])

/-! ## Sonarr: episodes, seasons, series -/

/-- An episode as `process_episode` sees it: the fetched record plus the
`path` that `get_file_details(config, None, episodeFileId)` would return for
it (`none` when the episode file fetch fails or the record has no `path`). -/
structure EpisodeR where
  id : Nat
  seasonNumber : Nat
  monitored : Bool
  hasFile : Bool
  episodeFileId : Option Nat
  path : Option String
deriving DecidableEq, Repr

/-- One entry of the series' `seasons` array. -/
structure SeasonInfo where
  seasonNumber : Nat
  monitored : Bool
deriving DecidableEq, Repr

/-- A series as the Sonarr pipeline sees it: the fetched record with its
`seasons` array and the episode list the `episode?seriesId=` endpoint
returns. -/
structure SeriesR where
  id : Nat
  monitored : Bool
  seasons : List SeasonInfo
  episodes : List EpisodeR
deriving DecidableEq, Repr

/-- `get_episodes(config, series_id, season_number)`: filter to the season,
then keep only episodes with files. -/
def get_episodes (eps : List EpisodeR) (n : Nat) : List EpisodeR :=
  (eps.filter (fun e => e.seasonNumber == n)).filter (fun e => e.hasFile)

def markEpProcessed (st : SonarrState) (eid : Nat) : SonarrState :=
  { st with processed_episode_ids := addIfAbsent eid st.processed_episode_ids }

def addEpUnmonitored (st : SonarrState) (eid : Nat) : SonarrState :=
  { st with unmonitored_episode_ids := addIfAbsent eid st.unmonitored_episode_ids }

def markSeriesProcessed (st : SonarrState) (sid : Nat) : SonarrState :=
  { st with processed_ids := addIfAbsent sid st.processed_ids }

/-- Record a season as unmonitored in `unmonitored_seasons` (the tail of
`unmonitor_season`). -/
def recordSeason (st : SonarrState) (sid n : Nat) : SonarrState :=
  { st with unmonitored_seasons := addSeasonNum st.unmonitored_seasons sid n }

/-- Ensure `unmonitored_seasons` has an entry for the series. -/
def ensureSeriesKey (st : SonarrState) (sid : Nat) : SonarrState :=
  { st with unmonitored_seasons := ensureKey st.unmonitored_seasons sid }

/-- `process_episode(episode, config, target_groups, state)` from
unmonitarr.py. -/
def process_episode (dryRun remoteOk : Bool) (targets : List String)
    (ep : EpisodeR) (st : SonarrState) : Bool × SonarrState × List Effect :=
  if ep.id ∈ st.unmonitored_episode_ids then (false, st, [])
  else if ¬ ep.monitored then
    (false,
     { st with
        unmonitored_episode_ids := addIfAbsent ep.id st.unmonitored_episode_ids,
        processed_episode_ids := addIfAbsent ep.id st.processed_episode_ids }, [])
  else if (¬ ep.hasFile) ∨ ep.episodeFileId = none then
    (false, markEpProcessed st ep.id, [])
  else
    match ep.path with
    | none => (false, markEpProcessed st ep.id, [])
    | some p =>
      match truthy (get_release_group p) with
      | none => (false, markEpProcessed st ep.id, [])
      | some g =>
        if strLower g ∈ targets then
          let st1 := markEpProcessed st ep.id
          if dryRun then (true, addEpUnmonitored st1 ep.id, [])
          else if remoteOk then
            (true, addEpUnmonitored st1 ep.id, [Effect.episodePut ep.id])
          else (false, st1, [Effect.episodePut ep.id])
        else (false, markEpProcessed st ep.id, [])

/-- The sequential pass of `process_episode` over one season's episode list
(the `max_workers == 1` path of `process_series_hierarchical`), counting the
episodes newly unmonitored this run. -/
def episodePass (dryRun remoteOk : Bool) (targets : List String) :
    List EpisodeR → SonarrState → Nat × SonarrState × List Effect
  | [], st => (0, st, [])
  | ep :: rest, st =>
    let r := process_episode dryRun remoteOk targets ep st
    let q := episodePass dryRun remoteOk targets rest r.2.1
    ((if r.1 then 1 else 0) + q.1, q.2.1, r.2.2 ++ q.2.2)

/-- `unmonitor_season(config, series_id, season_number, state)`: in dry-run
it reports success without touching the state; otherwise it looks the season
up in the freshly fetched series record, issues the `PUT`, and on success
records the season in `unmonitored_seasons`. -/
def unmonitor_season (dryRun remoteOk : Bool) (series : SeriesR) (n : Nat)
    (st : SonarrState) : Bool × SonarrState × List Effect :=
  if dryRun then (true, st, [])
  else if ¬ series.seasons.any (fun s => s.seasonNumber == n) then (false, st, [])
  else if remoteOk then
    (true, recordSeason st series.id n, [Effect.seasonPut series.id n])
  else (false, st, [Effect.seasonPut series.id n])

/-- `check_and_unmonitor_season(config, series_id, season_number, state)`. -/
def check_and_unmonitor_season (dryRun remoteOk : Bool) (series : SeriesR)
    (n : Nat) (st : SonarrState) : Bool × SonarrState × List Effect :=
  let all_episodes := get_episodes series.episodes n
  if all_episodes = [] then (false, st, [])
  else
    let episodes_with_files := all_episodes.filter (fun e => e.hasFile)
    if episodes_with_files = [] then (false, st, [])
    else
      let cnt := (episodes_with_files.filter
        (fun e => e.id ∈ st.unmonitored_episode_ids)).length
      if cnt = episodes_with_files.length ∧ 0 < cnt then
        unmonitor_season dryRun remoteOk series n st
      else (false, st, [])

/-- `unmonitor_series_keep_seasons(config, series_id, state)`: in dry-run it
reports success without touching the state; otherwise it issues the series
`PUT` (the fetched record with only `monitored` flipped) and on success
guarded-appends the series id to `unmonitored_ids`. -/
def unmonitor_series_keep_seasons (dryRun remoteOk : Bool) (series : SeriesR)
    (st : SonarrState) : Bool × SonarrState × List Effect :=
  if dryRun then (true, st, [])
  else if remoteOk then
    (true, { st with unmonitored_ids := addIfAbsent series.id st.unmonitored_ids },
     [Effect.seriesPut series.id])
  else (false, st, [Effect.seriesPut series.id])

/-- The seasons (excluding season 0) that have at least one episode with a
file, as collected by `check_and_unmonitor_full_series`. -/
def seasonsWithFiles (series : SeriesR) : List Nat :=
  (series.seasons.filter (fun s => ¬ (s.seasonNumber = 0) ∧
      ¬ ((get_episodes series.episodes s.seasonNumber).filter
          (fun e => e.hasFile) = []))).map (fun s => s.seasonNumber)

/-- `check_and_unmonitor_full_series(config, series_id, state)`. -/
def check_and_unmonitor_full_series (dryRun remoteOk : Bool) (series : SeriesR)
    (st : SonarrState) : Bool × SonarrState × List Effect :=
  if series.seasons = [] then (false, st, [])
  else
    let st1 := ensureSeriesKey st series.id
    let unm := lookupSeasons st1.unmonitored_seasons series.id
    let swf := seasonsWithFiles series
    if swf = [] then (false, st1, [])
    else if (swf.all (fun n => n ∈ unm)) ∧ ¬ (unm = []) then
      unmonitor_series_keep_seasons dryRun remoteOk series st1
    else (false, st1, [])

/-- One iteration of the `for season in seasons:` loop of
`process_series_hierarchical`: skip seasons already recorded, reconcile
seasons unmonitored upstream, otherwise run the episode pass and — only when
it newly unmonitored at least one episode — the season check.  Returns
(episodes newly unmonitored, seasons newly unmonitored, state, calls). -/
def seasonProcessOne (dryRun remoteOk : Bool) (targets : List String)
    (series : SeriesR) (sn : SeasonInfo) (st : SonarrState) :
    Nat × Nat × SonarrState × List Effect :=
  let n := sn.seasonNumber
  if n ∈ lookupSeasons st.unmonitored_seasons series.id then (0, 0, st, [])
  else if ¬ sn.monitored then (0, 0, recordSeason st series.id n, [])
  else
    let eps := get_episodes series.episodes n
    if eps = [] then (0, 0, st, [])
    else
      let pr := episodePass dryRun remoteOk targets eps st
      if 0 < pr.1 then
        let cr := check_and_unmonitor_season dryRun remoteOk series n pr.2.1
        (pr.1, if cr.1 then 1 else 0, cr.2.1, pr.2.2 ++ cr.2.2)
      else (pr.1, 0, pr.2.1, pr.2.2)

/-- The `for season in seasons:` loop of `process_series_hierarchical`. -/
def seasonsLoop (dryRun remoteOk : Bool) (targets : List String)
    (series : SeriesR) :
    List SeasonInfo → SonarrState → Nat × Nat × SonarrState × List Effect
  | [], st => (0, 0, st, [])
  | sn :: rest, st =>
    let r := seasonProcessOne dryRun remoteOk targets series sn st
    let q := seasonsLoop dryRun remoteOk targets series rest r.2.2.1
    (r.1 + q.1, r.2.1 + q.2.1, q.2.2.1, r.2.2.2 ++ q.2.2.2)

/-- The series rollup stage at the end of `process_series_hierarchical`:
only when at least one season was newly unmonitored this run does
`check_and_unmonitor_full_series` get called. -/
def seriesRollupStage (dryRun remoteOk : Bool) (series : SeriesR)
    (newSeasons : Nat) (st : SonarrState) : Bool × SonarrState × List Effect :=
  if 0 < newSeasons then check_and_unmonitor_full_series dryRun remoteOk series st
  else (false, st, [])

/-- `process_series_hierarchical(config, series, target_groups, state)`
(sequential path).  Returns ((episodes, seasons, series) unmonitored
counts, new state, issued mutation calls). -/
def process_series_hierarchical (dryRun remoteOk : Bool) (targets : List String)
    (series : SeriesR) (st : SonarrState) :
    (Nat × Nat × Nat) × SonarrState × List Effect :=
  let st0 := ensureSeriesKey st series.id
  if series.seasons = [] then ((0, 0, 0), markSeriesProcessed st0 series.id, [])
  else
    let r := seasonsLoop dryRun remoteOk targets series series.seasons st0
    let sr := seriesRollupStage dryRun remoteOk series r.2.1 r.2.2.1
    ((r.1, r.2.1, if sr.1 then 1 else 0), markSeriesProcessed sr.2.1 series.id,
     r.2.2.2 ++ sr.2.2)

/-! ## The media_processors.py Radarr variant -/

/-- A movie as the inner `process_movie` of `process_radarr_media`
(media_processors.py) sees it: `moviePath` is `movie['movieFile']['path']`
when a `movieFile` is present. -/
structure MpMovie where
  id : Nat
  monitored : Bool
  moviePath : Option String
deriving DecidableEq, Repr

/-- The inner `process_movie` of `process_radarr_media`
(media_processors.py).  Appends are unguarded; a successful live unmonitor
returns before the `processed_ids` append; in dry-run the mutation block is
skipped entirely. -/
def mp_process_movie (dryRun remoteOk : Bool) (groups : List String)
    (movie : MpMovie) (st : RadarrState) : RadarrState × List Effect :=
  if movie.id ∈ st.processed_ids || movie.id ∈ st.unmonitored_ids then (st, [])
  else if ¬ movie.monitored then
    ({ st with unmonitored_ids := st.unmonitored_ids ++ [movie.id] }, [])
  else
    let rg := match movie.moviePath with
      | some p => extract_release_group p
      | none => none
    match truthy rg with
    | some g =>
      if strLower g ∈ groups then
        if ¬ dryRun then
          if remoteOk then
            ({ st with unmonitored_ids := st.unmonitored_ids ++ [movie.id] },
             [Effect.moviePut movie.id])
          else
            ({ st with processed_ids := st.processed_ids ++ [movie.id] },
             [Effect.moviePut movie.id])
        else ({ st with processed_ids := st.processed_ids ++ [movie.id] }, [])
      else ({ st with processed_ids := st.processed_ids ++ [movie.id] }, [])
    | none => ({ st with processed_ids := st.processed_ids ++ [movie.id] }, [])

/-! ## Whole-application state and the force-full-scan clearing -/

structure AppState where
  radarr : RadarrState
  sonarr : SonarrState
deriving DecidableEq, Repr

/-- The force-full-scan branch of `process_media`: clear the three
`processed` lists, touch nothing else. -/
def force_full_scan_clear (st : AppState) : AppState :=
  { radarr := { st.radarr with processed_ids := [] },
    sonarr := { st.sonarr with processed_ids := [], processed_episode_ids := [] } }

/-- One state-mutating call of the four functions C10 talks about. -/
inductive AppOp where
  | opMovie (dryRun remoteOk : Bool) (targets : List String) (item : MovieItem) : AppOp
  | opEpisode (dryRun remoteOk : Bool) (targets : List String) (ep : EpisodeR) : AppOp
  | opSeason (dryRun remoteOk : Bool) (series : SeriesR) (n : Nat) : AppOp
  | opSeries (dryRun remoteOk : Bool) (series : SeriesR) : AppOp

def applyOp (st : AppState) : AppOp → AppState
  | AppOp.opMovie dr rk t item =>
    { st with radarr := (process_movie dr rk t item st.radarr).2.1 }
  | AppOp.opEpisode dr rk t ep =>
    { st with sonarr := (process_episode dr rk t ep st.sonarr).2.1 }
  | AppOp.opSeason dr rk series n =>
    { st with sonarr := (unmonitor_season dr rk series n st.sonarr).2.1 }
  | AppOp.opSeries dr rk series =>
    { st with sonarr := (unmonitor_series_keep_seasons dr rk series st.sonarr).2.1 }

/-- A sequential run of state-mutating calls. -/
def runOps (ops : List AppOp) (st : AppState) : AppState := ops.foldl applyOp st

/-! ## The JSON-record model of the series update (C4) -/

/-- An abstract JSON value: the `monitored` flag is a boolean; every other
field of the fetched series record is opaque to the update. -/
inductive JVal where
  | jbool (b : Bool) : JVal
  | jnum (n : Nat) : JVal
  | jstr (s : String) : JVal
  | jraw (tag : Nat) : JVal
deriving DecidableEq, Repr

/-- Python dict lookup on the JSON record (insertion-ordered, unique keys). -/
def dictLookup : List (String × JVal) → String → Option JVal
  | [], _ => none
  | p :: rest, k => if p.1 = k then some p.2 else dictLookup rest k

/-- Python dict assignment `m[k] = v`: replace the entry in place, or append
a new one at the end. -/
def dictSet : List (String × JVal) → String → JVal → List (String × JVal)
  | [], k, v => [(k, v)]
  | p :: rest, k, v =>
    if p.1 = k then (p.1, v) :: rest else p :: dictSet rest k v

/-- The body the series-level unmonitor sends back:
`series['monitored'] = False` on the fetched record, then `PUT` of that very
record (`unmonitor_series_keep_seasons`, unmonitarr.py). -/
def unmonitor_series_payload (series : List (String × JVal)) :
    List (String × JVal) :=
  dictSet series "monitored" (JVal.jbool false)

/-! ## Derived predicates used in the statements -/

/-- Whether one file of a movie triggers the unmonitor branch of
`process_movie`: it has a path whose extracted release group is truthy and,
lower-cased, among the targets. -/
def fileMatches (targets : List String) (f : Option String) : Bool :=
  match f with
  | some p =>
    match truthy (get_release_group p) with
    | some g => decide (strLower g ∈ targets)
    | none => false
  | none => false

/-- Growth of the Sonarr unmonitored collections between two states. -/
def sonarrGrows (s t : SonarrState) : Prop :=
  (∀ x ∈ s.unmonitored_ids, x ∈ t.unmonitored_ids) ∧
  (∀ x ∈ s.unmonitored_episode_ids, x ∈ t.unmonitored_episode_ids) ∧
  (∀ sid n, n ∈ lookupSeasons s.unmonitored_seasons sid →
     n ∈ lookupSeasons t.unmonitored_seasons sid)

/-- Duplicate-freeness of the per-series season map: series keys occur once
and each season list is duplicate-free. -/
def seasonsNodup (m : List (Nat × List Nat)) : Prop :=
  (m.map (fun p => p.1)).Nodup ∧ ∀ p ∈ m, p.2.Nodup

/-- Duplicate-freeness of the Radarr id collections. -/
def radarrNodup (s : RadarrState) : Prop :=
  s.processed_ids.Nodup ∧ s.unmonitored_ids.Nodup

/-- Duplicate-freeness of the Sonarr id collections. -/
def sonarrNodup (s : SonarrState) : Prop :=
  s.processed_ids.Nodup ∧ s.processed_episode_ids.Nodup ∧
  s.unmonitored_ids.Nodup ∧ s.unmonitored_episode_ids.Nodup ∧
  seasonsNodup s.unmonitored_seasons

/-- Duplicate-freeness of every id collection of the processing state. -/
def stateNodup (st : AppState) : Prop :=
  radarrNodup st.radarr ∧ sonarrNodup st.sonarr

/-! ## Sample data for the concrete runs -/

/-- An episode of season 1 whose file name matches target group `group`. -/
def sampleEpisode : EpisodeR := ⟨100, 1, true, true, some 9, some "Show.S01E01-GROUP.mkv"⟩

/-- A one-season series holding `sampleEpisode`. -/
def sampleSeries : SeriesR := ⟨7, true, [⟨1, true⟩], [sampleEpisode]⟩

/-- A monitored movie whose single file matches target group `group`. -/
def sampleMovie : MovieItem := ⟨2, true, none, none, [some "Show.S01E01-GROUP.mkv"]⟩

def emptyRadarr : RadarrState := ⟨[], []⟩

def emptySonarr : SonarrState := ⟨[], [], [], [], []⟩

/-- State in which `sampleEpisode` is already recorded unmonitored but its
season is not. -/
def stEpisodeRecorded : SonarrState := ⟨[], [100], [], [100], []⟩

/-- State in which `sampleEpisode` and season 1 of `sampleSeries` are both
already recorded unmonitored, while the series is not. -/
def stSeasonRecorded : SonarrState := ⟨[], [100], [], [100], [(7, [1])]⟩

/-! ## Helper lemmas -/

theorem mem_addIfAbsent {x y : Nat} {l : List Nat} :
    x ∈ addIfAbsent y l ↔ x = y ∨ x ∈ l := by
  unfold addIfAbsent
  split
  · rename_i h
    constructor
    · exact Or.inr
    · rintro (rfl | hx)
      · exact h
      · exact hx
  · simp [List.mem_append, or_comm]

theorem mem_addIfAbsent_of_mem {x y : Nat} {l : List Nat} (h : x ∈ l) :
    x ∈ addIfAbsent y l :=
  mem_addIfAbsent.mpr (Or.inr h)

theorem self_mem_addIfAbsent (y : Nat) (l : List Nat) : y ∈ addIfAbsent y l :=
  mem_addIfAbsent.mpr (Or.inl rfl)

theorem nodup_addIfAbsent {y : Nat} {l : List Nat} (h : l.Nodup) :
    (addIfAbsent y l).Nodup := by
  unfold addIfAbsent
  split
  · exact h
  · rename_i hy
    simp [List.nodup_append, h, hy]

theorem lookupSeasons_append_nil_entry (sid sid2 : Nat) :
    ∀ (m : List (Nat × List Nat)),
      lookupSeasons (m ++ [(sid, [])]) sid2 = lookupSeasons m sid2
  | [] => by
    simp only [List.nil_append, lookupSeasons]
    split <;> rfl
  | p :: rest => by
    simp only [List.cons_append, lookupSeasons]
    split
    · rfl
    · exact lookupSeasons_append_nil_entry sid sid2 rest

theorem lookupSeasons_ensureKey (m : List (Nat × List Nat)) (sid sid2 : Nat) :
    lookupSeasons (ensureKey m sid) sid2 = lookupSeasons m sid2 := by
  unfold ensureKey
  split
  · rfl
  · exact lookupSeasons_append_nil_entry sid sid2 m

theorem lookupSeasons_addSeasonNum (sid n sid2 : Nat) :
    ∀ (m : List (Nat × List Nat)),
      lookupSeasons (addSeasonNum m sid n) sid2 =
        if sid2 = sid then addIfAbsent n (lookupSeasons m sid)
        else lookupSeasons m sid2
  | [] => by
    by_cases h : sid2 = sid
    · simp [addSeasonNum, lookupSeasons, addIfAbsent, h]
    · have h2 : ¬ sid = sid2 := fun hc => h (Eq.symm hc)
      simp [addSeasonNum, lookupSeasons, addIfAbsent, h, h2]
  | p :: rest => by
    by_cases h1 : p.1 = sid
    · by_cases h2 : sid2 = sid
      · subst h2
        simp [addSeasonNum, lookupSeasons, h1]
      · have h3 : ¬ p.1 = sid2 := fun hc => h2 (by rw [← hc, h1])
        have h4 : ¬ sid = sid2 := fun hc => h2 (Eq.symm hc)
        simp [addSeasonNum, lookupSeasons, h1, h2, h3, h4]
    · by_cases h2 : p.1 = sid2
      · have h3 : ¬ sid2 = sid := fun hc => h1 (by rw [h2, hc])
        simp [addSeasonNum, lookupSeasons, h1, h2, h3]
      · simp only [addSeasonNum, lookupSeasons, if_neg h1, if_neg h2]
        exact lookupSeasons_addSeasonNum sid n sid2 rest

theorem mem_lookupSeasons_addSeasonNum {m : List (Nat × List Nat)}
    {sid2 k : Nat} (sid n : Nat) (h : k ∈ lookupSeasons m sid2) :
    k ∈ lookupSeasons (addSeasonNum m sid n) sid2 := by
  rw [lookupSeasons_addSeasonNum]
  split
  · rename_i hs
    subst hs
    exact mem_addIfAbsent_of_mem h
  · exact h

theorem hasKey_iff_mem_keys {sid : Nat} :
    ∀ {m : List (Nat × List Nat)},
      hasKey m sid = true ↔ sid ∈ m.map (fun p => p.1)
  | [] => by simp [hasKey]
  | p :: rest => by
    simp only [hasKey, List.map_cons, List.mem_cons, Bool.or_eq_true,
      decide_eq_true_eq]
    constructor
    · rintro (h | h)
      · exact Or.inl (Eq.symm h)
      · exact Or.inr (hasKey_iff_mem_keys.mp h)
    · rintro (h | h)
      · exact Or.inl (Eq.symm h)
      · exact Or.inr (hasKey_iff_mem_keys.mpr h)

theorem keys_addSeasonNum (sid n : Nat) :
    ∀ m : List (Nat × List Nat),
      (addSeasonNum m sid n).map (fun p => p.1) =
        if hasKey m sid then m.map (fun p => p.1)
        else m.map (fun p => p.1) ++ [sid]
  | [] => by simp [addSeasonNum, hasKey]
  | p :: rest => by
    by_cases h1 : p.1 = sid
    · simp [addSeasonNum, hasKey, h1]
    · simp only [addSeasonNum, if_neg h1, List.map_cons, hasKey,
        decide_eq_true_eq]
      rw [keys_addSeasonNum sid n rest]
      by_cases h2 : hasKey rest sid
      · simp [h1, h2]
      · simp [h1, h2]

theorem seasonsNodup_addSeasonNum {m : List (Nat × List Nat)} (sid n : Nat)
    (h : seasonsNodup m) : seasonsNodup (addSeasonNum m sid n) := by
  obtain ⟨hkeys, hvals⟩ := h
  constructor
  · rw [keys_addSeasonNum]
    split
    · exact hkeys
    · rename_i hnk
      have hs : ¬ sid ∈ m.map (fun p => p.1) := by
        intro hc
        exact hnk (hasKey_iff_mem_keys.mpr hc)
      simp [List.nodup_append, hkeys, hs]
  · clear hkeys
    induction m with
    | nil =>
      intro q hq
      simp only [addSeasonNum, List.mem_singleton] at hq
      subst hq
      exact List.nodup_singleton n
    | cons p rest ih =>
      intro q hq
      by_cases h1 : p.1 = sid
      · simp only [addSeasonNum, if_pos h1, List.mem_cons] at hq
        rcases hq with hq | hq
        · subst hq
          exact nodup_addIfAbsent (hvals p (List.mem_cons_self p rest))
        · exact hvals q (List.mem_cons_of_mem p hq)
      · simp only [addSeasonNum, if_neg h1, List.mem_cons] at hq
        rcases hq with hq | hq
        · subst hq
          exact hvals q (List.mem_cons_self q rest)
        · exact ih (fun r hr => hvals r (List.mem_cons_of_mem p hr)) q hq

theorem seasonsNodup_ensureKey {m : List (Nat × List Nat)} (sid : Nat)
    (h : seasonsNodup m) : seasonsNodup (ensureKey m sid) := by
  unfold ensureKey
  split
  · exact h
  · rename_i hnk
    obtain ⟨hkeys, hvals⟩ := h
    constructor
    · have hs : ¬ sid ∈ m.map (fun p => p.1) := by
        intro hc
        exact hnk (hasKey_iff_mem_keys.mpr hc)
      simp [List.nodup_append, hkeys, hs]
    · intro q hq
      rcases List.mem_append.mp hq with hq | hq
      · exact hvals q hq
      · simp only [List.mem_singleton] at hq
        subst hq
        exact List.nodup_nil

theorem dictLookup_dictSet_self (k : String) (v : JVal) :
    ∀ m : List (String × JVal), dictLookup (dictSet m k v) k = some v
  | [] => by simp [dictSet, dictLookup]
  | p :: rest => by
    by_cases h : p.1 = k
    · simp [dictSet, dictLookup, h]
    · simp only [dictSet, if_neg h, dictLookup, if_neg h]
      exact dictLookup_dictSet_self k v rest

theorem dictLookup_dictSet_other (k k2 : String) (v : JVal) (hne : ¬ k2 = k) :
    ∀ m : List (String × JVal),
      dictLookup (dictSet m k v) k2 = dictLookup m k2
  | [] => by
    have h2 : ¬ k = k2 := fun hc => hne (Eq.symm hc)
    simp [dictSet, dictLookup, h2]
  | p :: rest => by
    by_cases h : p.1 = k
    · have h2 : ¬ p.1 = k2 := fun hc => hne (by rw [← hc, h])
      have h3 : ¬ k = k2 := fun hc => hne (Eq.symm hc)
      simp [dictSet, dictLookup, h, h2, h3]
    · simp only [dictSet, if_neg h, dictLookup]
      split
      · rfl
      · exact dictLookup_dictSet_other k k2 v hne rest

/-! ## C4: the series-level unmonitor update preserves every other field -/

/-- C4: for every series record fetched from the remote, the update body the
series-level unmonitor sends back (`unmonitor_series_keep_seasons` sets
`series['monitored'] = False` on the fetched record and `PUT`s that record)
has the `monitored` flag false and every other field — in particular
`seasonFolder` — unchanged from the fetched record. -/
theorem series_unmonitor_preserves_fields :
    (∀ series : List (String × JVal),
        dictLookup (unmonitor_series_payload series) "monitored" =
          some (JVal.jbool false)) ∧
    (∀ (series : List (String × JVal)) (k : String), ¬ k = "monitored" →
        dictLookup (unmonitor_series_payload series) k = dictLookup series k) :=
  ⟨fun series => dictLookup_dictSet_self _ _ series,
   fun series k h => dictLookup_dictSet_other _ k _ h series⟩

/-- Witness for C4 at a concrete fetched record: the `seasonFolder` field
survives the update untouched. -/
theorem series_unmonitor_preserves_fields_witness :
    dictLookup (unmonitor_series_payload
      [("title", JVal.jstr "Show"), ("monitored", JVal.jbool true),
       ("seasonFolder", JVal.jbool true)]) "seasonFolder" =
      some (JVal.jbool true) := by
  rw [series_unmonitor_preserves_fields.2 _ "seasonFolder" (by decide)]
  rfl

/-! ## C5: the extractor scenarios -/

/-- C5: evaluation of both extractors at the four spec scenarios.  The spec
expects `GROUP` in the first three; the code returns `DL-GROUP` (unmonitarr
variant, first scenario) and `Title`, `S01E01`, `mkv` (media_processors
variant), because `re.search` takes the leftmost match of each pattern and
the media_processors variant never strips the extension.  Neither extractor
can raise: both are total functions. -/
theorem extractor_scenarios_eval :
    get_release_group "Movie.Title.2023.1080p.WEB-DL-GROUP.mkv" = some "DL-GROUP" ∧
    get_release_group "Show.S01E01.GROUP.mkv" = some "GROUP" ∧
    get_release_group "Show - S01E01 - Title [GROUP].mkv" = some "GROUP" ∧
    get_release_group "randomfile.mkv" = some "randomfile" ∧
    extract_release_group "Movie.Title.2023.1080p.WEB-DL-GROUP.mkv" = some "Title" ∧
    extract_release_group "Show.S01E01.GROUP.mkv" = some "S01E01" ∧
    extract_release_group "Show - S01E01 - Title [GROUP].mkv" = some "mkv" ∧
    extract_release_group "randomfile.mkv" = some "mkv" := by
  refine ⟨?_, ?_, ?_, ?_, ?_, ?_, ?_, ?_⟩ <;> decide

/-! ## C6: rule order and extension stripping -/

/-- C6 counterexample: the media_processors extractor does not strip the
extension before trying its patterns — on `randomfile.mkv` it returns the
extension token `mkv`, while the same rule cascade applied to the
extension-stripped basename (the behaviour the claim describes) yields
nothing. -/
theorem extension_not_stripped_counterexample :
    extract_release_group "randomfile.mkv" = some "mkv" ∧
    extract_release_group_stripped "randomfile.mkv" = none := by
  refine ⟨?_, ?_⟩ <;> decide

/-- C6 amended: `get_release_group` takes the basename, strips the
extension, and evaluates its rules in listed order; `_extract_release_group`
takes the basename WITHOUT stripping the extension and evaluates its rules
in listed order.  In both, the first matching rule alone produces the
result: the returned token comes from one rule, every rule before it failed,
and `none` is returned exactly when every rule fails. -/
theorem extractor_first_rule_wins :
    (∀ path, get_release_group path =
       firstSome grgRules (splitextRoot (basename path))) ∧
    (∀ path, extract_release_group path = firstSome mpRules (basename path)) ∧
    (∀ (rules : List (String → Option String)) (s g : String),
       firstSome rules s = some g →
       ∃ pre f post, rules = pre ++ f :: post ∧ f s = some g ∧
         ∀ f2 ∈ pre, f2 s = none) ∧
    (∀ (rules : List (String → Option String)) (s : String),
       firstSome rules s = none ↔ ∀ f ∈ rules, f s = none) := by
  refine ⟨fun _ => rfl, fun _ => rfl, ?_, ?_⟩
  · intro rules s g h
    induction rules with
    | nil => simp [firstSome] at h
    | cons f fs ih =>
      rw [firstSome, List.findSome?_cons] at h
      cases hf : f s with
      | some g2 =>
        rw [hf] at h
        simp only [Option.some.injEq] at h
        subst h
        exact ⟨[], f, fs, rfl, hf, by intro f2 h2; simp at h2⟩
      | none =>
        rw [hf] at h
        obtain ⟨pre, f3, post, hr, hfs, hpre⟩ := ih h
        refine ⟨f :: pre, f3, post, by rw [hr, List.cons_append], hfs, ?_⟩
        intro f2 h2
        rcases List.mem_cons.mp h2 with h2 | h2
        · rw [h2]
          exact hf
        · exact hpre f2 h2
  · intro rules s
    rw [firstSome]
    exact List.findSome?_eq_none_iff

/-- Witness for C6: instantiating the first-match characterization at the
media_processors rule list and `randomfile.mkv`. -/
theorem extractor_first_rule_wins_witness :
    ∃ pre f post, mpRules = pre ++ f :: post ∧
      f "randomfile.mkv" = some "mkv" ∧
      ∀ f2 ∈ pre, f2 "randomfile.mkv" = none :=
  extractor_first_rule_wins.2.2.1 mpRules "randomfile.mkv" "mkv" (by decide)

/-! ## Characterization of the movie file loop -/

theorem movieFileLoop_dry_rk (rk : Bool) (t : List String) (mid : Nat) :
    ∀ (files : List (Option String)) (st : RadarrState),
      movieFileLoop true rk t mid files st = movieFileLoop true true t mid files st
  | [], _ => rfl
  | f :: rest, st => by
    cases f with
    | none =>
      simp only [movieFileLoop]
      exact movieFileLoop_dry_rk rk t mid rest st
    | some p =>
      cases htr : truthy (get_release_group p) with
      | none =>
        simp only [movieFileLoop, htr]
        exact movieFileLoop_dry_rk rk t mid rest st
      | some g =>
        by_cases hm : strLower g ∈ t
        · simp only [movieFileLoop, htr, if_pos hm]
          simp
        · simp only [movieFileLoop, htr, if_neg hm]
          exact movieFileLoop_dry_rk rk t mid rest st

theorem movieFileLoop_spec (dr : Bool) (t : List String) (mid : Nat) :
    ∀ (files : List (Option String)) (st : RadarrState),
      movieFileLoop dr true t mid files st =
        (files.any (fileMatches t),
         (if files.any (fileMatches t) = true then
            addMovieUnmonitored (markMovieProcessed st mid) mid
          else markMovieProcessed st mid),
         (if dr = false ∧ files.any (fileMatches t) = true then
            [Effect.moviePut mid] else []))
  | [], st => by simp [movieFileLoop]
  | f :: rest, st => by
    cases f with
    | none =>
      have hf : fileMatches t none = false := rfl
      simp only [movieFileLoop, List.any_cons, hf, Bool.false_or]
      exact movieFileLoop_spec dr t mid rest st
    | some p =>
      cases htr : truthy (get_release_group p) with
      | none =>
        have hf : fileMatches t (some p) = false := by
          simp [fileMatches, htr]
        simp only [movieFileLoop, htr, List.any_cons, hf, Bool.false_or]
        exact movieFileLoop_spec dr t mid rest st
      | some g =>
        by_cases hm : strLower g ∈ t
        · have hf : fileMatches t (some p) = true := by
            simp [fileMatches, htr, hm]
          simp only [movieFileLoop, htr, if_pos hm, List.any_cons, hf,
            Bool.true_or]
          cases dr with
          | true => simp
          | false => simp
        · have hf : fileMatches t (some p) = false := by
            simp [fileMatches, htr, hm]
          simp only [movieFileLoop, htr, if_neg hm, List.any_cons, hf,
            Bool.false_or]
          exact movieFileLoop_spec dr t mid rest st

/-- Full characterization of `process_movie` when every remote mutation
succeeds. -/
theorem process_movie_spec (dr : Bool) (t : List String) (item : MovieItem)
    (st : RadarrState) :
    process_movie dr true t item st =
      if item.id ∈ st.unmonitored_ids then (false, st, [])
      else if ¬ item.monitored then
        (false,
         { st with unmonitored_ids := addIfAbsent item.id st.unmonitored_ids,
                   processed_ids := addIfAbsent item.id st.processed_ids }, [])
      else
        (item.files.any (fileMatches t),
         (if item.files.any (fileMatches t) = true then
            addMovieUnmonitored (markMovieProcessed st item.id) item.id
          else markMovieProcessed st item.id),
         (if dr = false ∧ item.files.any (fileMatches t) = true then
            [Effect.moviePut item.id] else [])) := by
  by_cases h1 : item.id ∈ st.unmonitored_ids
  · simp only [process_movie, if_pos h1]
  · by_cases h2 : (item.monitored : Prop)
    · simp only [process_movie, if_neg h1, if_neg (not_not_intro h2)]
      exact movieFileLoop_spec dr t item.id item.files st
    · simp only [process_movie, if_neg h1, if_pos h2]

/-- Full characterization of `process_episode` when every remote mutation
succeeds. -/
theorem process_episode_spec (dr : Bool) (t : List String) (ep : EpisodeR)
    (st : SonarrState) :
    process_episode dr true t ep st =
      if ep.id ∈ st.unmonitored_episode_ids then (false, st, [])
      else if ¬ ep.monitored then
        (false,
         { st with
            unmonitored_episode_ids := addIfAbsent ep.id st.unmonitored_episode_ids,
            processed_episode_ids := addIfAbsent ep.id st.processed_episode_ids }, [])
      else if (¬ ep.hasFile) ∨ ep.episodeFileId = none then
        (false, markEpProcessed st ep.id, [])
      else if fileMatches t ep.path then
        (true, addEpUnmonitored (markEpProcessed st ep.id) ep.id,
         if dr = false then [Effect.episodePut ep.id] else [])
      else (false, markEpProcessed st ep.id, []) := by
  by_cases h1 : ep.id ∈ st.unmonitored_episode_ids
  · simp only [process_episode, if_pos h1]
  · by_cases h2 : (ep.monitored : Prop)
    · by_cases h3 : (¬ ep.hasFile) ∨ ep.episodeFileId = none
      · simp only [process_episode, if_neg h1, if_neg (not_not_intro h2),
          if_pos h3]
      · simp only [process_episode, if_neg h1, if_neg (not_not_intro h2),
          if_neg h3]
        cases hpath : ep.path with
        | none =>
          have hf : fileMatches t (none : Option String) = false := rfl
          simp [hf]
        | some p =>
          cases htr : truthy (get_release_group p) with
          | none =>
            have hf : fileMatches t (some p) = false := by
              simp [fileMatches, htr]
            simp [htr, hf]
          | some g =>
            by_cases hm : strLower g ∈ t
            · have hf : fileMatches t (some p) = true := by
                simp [fileMatches, htr, hm]
              simp only [htr, if_pos hm]
              cases dr with
              | true => simp [hf]
              | false => simp [hf]
            · have hf : fileMatches t (some p) = false := by
                simp [fileMatches, htr, hm]
              simp only [htr, if_neg hm]
              simp [hf]
    · simp only [process_episode, if_neg h1, if_pos h2]

theorem subset_after_mark {st : RadarrState} {mid : Nat}
    (hsub : ∀ x ∈ st.unmonitored_ids, x ∈ st.processed_ids) :
    ∀ x ∈ (markMovieProcessed st mid).unmonitored_ids,
      x ∈ (markMovieProcessed st mid).processed_ids := by
  intro x hx
  exact mem_addIfAbsent_of_mem (hsub x hx)

theorem subset_after_add {st : RadarrState} {mid : Nat}
    (hsub : ∀ x ∈ st.unmonitored_ids, x ∈ st.processed_ids) :
    ∀ x ∈ (addMovieUnmonitored (markMovieProcessed st mid) mid).unmonitored_ids,
      x ∈ (addMovieUnmonitored (markMovieProcessed st mid) mid).processed_ids := by
  intro x hx
  simp only [addMovieUnmonitored, markMovieProcessed] at hx ⊢
  rcases mem_addIfAbsent.mp hx with rfl | hx2
  · exact self_mem_addIfAbsent _ _
  · exact mem_addIfAbsent_of_mem (hsub x hx2)

theorem movieFileLoop_preserves_subset (dr rk : Bool) (t : List String)
    (mid : Nat) :
    ∀ (files : List (Option String)) (st : RadarrState),
      (∀ x ∈ st.unmonitored_ids, x ∈ st.processed_ids) →
      ∀ x ∈ (movieFileLoop dr rk t mid files st).2.1.unmonitored_ids,
        x ∈ (movieFileLoop dr rk t mid files st).2.1.processed_ids
  | [], st, hsub => by
    simp only [movieFileLoop]
    exact subset_after_mark hsub
  | f :: rest, st, hsub => by
    cases f with
    | none =>
      simp only [movieFileLoop]
      exact movieFileLoop_preserves_subset dr rk t mid rest st hsub
    | some p =>
      cases htr : truthy (get_release_group p) with
      | none =>
        simp only [movieFileLoop, htr]
        exact movieFileLoop_preserves_subset dr rk t mid rest st hsub
      | some g =>
        by_cases hm : strLower g ∈ t
        · simp only [movieFileLoop, htr, if_pos hm]
          cases dr with
          | true => exact subset_after_add hsub
          | false =>
            cases rk with
            | true => exact subset_after_add hsub
            | false =>
              exact movieFileLoop_preserves_subset false false t mid rest
                (markMovieProcessed st mid) (subset_after_mark hsub)
        · simp only [movieFileLoop, htr, if_neg hm]
          exact movieFileLoop_preserves_subset dr rk t mid rest st hsub

/-! ## C1: unmonitored ⊆ processed -/

/-- C1 counterexample: in a monitoring-mode scan (`process_media` →
`process_media_radarr` → `fetch_new_media`), a movie that is already
unmonitored upstream is recorded into `unmonitored_ids` by the fetch filter
without ever being added to `processed_ids`, so after the completed scan
`unmonitored[movie] ⊆ processed[movie]` fails. -/
theorem fetch_filter_breaks_subset :
    2 ∈ (radarrScanMonitoring false true ["group"] 5
        [⟨2, false, none, none, []⟩] emptyRadarr).1.unmonitored_ids ∧
    ¬ 2 ∈ (radarrScanMonitoring false true ["group"] 5
        [⟨2, false, none, none, []⟩] emptyRadarr).1.processed_ids := by
  refine ⟨?_, ?_⟩ <;> decide

/-- C1 amended: the decision-policy functions themselves (`process_movie`,
`process_episode`) do preserve `unmonitored[G] ⊆ processed[G]` at their
granularity, for every dry-run flag and every remote outcome; the invariant
can only be broken by the `fetch_new_media` filtering phase, which records
upstream-unmonitored identifiers without marking them processed. -/
theorem decision_policy_preserves_subset :
    (∀ (dr rk : Bool) (t : List String) (item : MovieItem) (st : RadarrState),
       (∀ x ∈ st.unmonitored_ids, x ∈ st.processed_ids) →
       ∀ x ∈ (process_movie dr rk t item st).2.1.unmonitored_ids,
         x ∈ (process_movie dr rk t item st).2.1.processed_ids) ∧
    (∀ (dr rk : Bool) (t : List String) (ep : EpisodeR) (st : SonarrState),
       (∀ x ∈ st.unmonitored_episode_ids, x ∈ st.processed_episode_ids) →
       ∀ x ∈ (process_episode dr rk t ep st).2.1.unmonitored_episode_ids,
         x ∈ (process_episode dr rk t ep st).2.1.processed_episode_ids) := by
  constructor
  · intro dr rk t item st hsub
    simp only [process_movie]
    split
    · exact hsub
    · split
      · intro x hx
        simp only at hx ⊢
        rcases mem_addIfAbsent.mp hx with rfl | hx2
        · exact self_mem_addIfAbsent _ _
        · exact mem_addIfAbsent_of_mem (hsub x hx2)
      · exact movieFileLoop_preserves_subset dr rk t item.id item.files st hsub
  · intro dr rk t ep st hsub
    simp only [process_episode]
    repeat' split
    all_goals intro x hx
    all_goals
      first
        | exact hsub x hx
        | (simp only at hx ⊢
           rcases mem_addIfAbsent.mp hx with rfl | hx2
           · exact self_mem_addIfAbsent _ _
           · exact mem_addIfAbsent_of_mem (hsub x hx2))
        | exact mem_addIfAbsent_of_mem (hsub x hx)

/-- Witness for C1's amended statement at a concrete matching movie. -/
theorem decision_policy_preserves_subset_witness :
    2 ∈ (process_movie false true ["group"] sampleMovie
        emptyRadarr).2.1.processed_ids :=
  decision_policy_preserves_subset.1 false true ["group"] sampleMovie
    emptyRadarr (by decide) 2 (by decide)

/-! ## C7: dry-run behaviour -/

/-- C7 counterexample: with dry-run enabled, processing a matching movie
issues no remote call but DOES update `unmonitored[movie]` — the id is added
to `unmonitored_ids`, contradicting "the unmonitored[G] sets are not
updated". -/
theorem dry_run_updates_unmonitored :
    (process_movie true true ["group"] sampleMovie emptyRadarr).2.2 = [] ∧
    2 ∈ (process_movie true true ["group"] sampleMovie
        emptyRadarr).2.1.unmonitored_ids ∧
    ¬ 2 ∈ emptyRadarr.unmonitored_ids := by
  refine ⟨?_, ?_, ?_⟩ <;> decide

theorem process_episode_dry_rk (rk : Bool) (t : List String) (ep : EpisodeR)
    (st : SonarrState) :
    process_episode true rk t ep st = process_episode true true t ep st := by
  simp only [process_episode]
  repeat' split
  all_goals simp_all

/-- C7 amended: with dry-run enabled no remote mutation call is issued, and
for movies and episodes the state transition — `unmonitored[G]` update
included — is exactly the one live mode computes when every mutation
succeeds; the season- and series-level dry-run operations report success
without recording anything.  In the media_processors variant, dry-run leaves
`unmonitored_ids` unchanged for monitored movies and issues no call. -/
theorem dry_run_no_call_same_decision :
    (∀ (rk : Bool) (t : List String) (item : MovieItem) (st : RadarrState),
       process_movie true rk t item st =
         ((process_movie false true t item st).1,
          (process_movie false true t item st).2.1, [])) ∧
    (∀ (rk : Bool) (t : List String) (ep : EpisodeR) (st : SonarrState),
       process_episode true rk t ep st =
         ((process_episode false true t ep st).1,
          (process_episode false true t ep st).2.1, [])) ∧
    (∀ (rk : Bool) (series : SeriesR) (n : Nat) (st : SonarrState),
       unmonitor_season true rk series n st = (true, st, [])) ∧
    (∀ (rk : Bool) (series : SeriesR) (st : SonarrState),
       unmonitor_series_keep_seasons true rk series st = (true, st, [])) ∧
    (∀ (rk : Bool) (g : List String) (m : MpMovie) (st : RadarrState),
       (mp_process_movie true rk g m st).2 = [] ∧
       (m.monitored = true →
         (mp_process_movie true rk g m st).1.unmonitored_ids =
           st.unmonitored_ids)) := by
  refine ⟨?_, ?_, fun _ _ _ _ => rfl, fun _ _ _ => rfl, ?_⟩
  · intro rk t item st
    by_cases h1 : item.id ∈ st.unmonitored_ids
    · simp only [process_movie, if_pos h1]
    · by_cases h2 : (item.monitored : Prop)
      · simp only [process_movie, if_neg h1, if_neg (not_not_intro h2)]
        rw [movieFileLoop_dry_rk, movieFileLoop_spec, movieFileLoop_spec]
        simp
      · simp only [process_movie, if_neg h1, if_pos h2]
  · intro rk t ep st
    rw [process_episode_dry_rk, process_episode_spec, process_episode_spec]
    by_cases h1 : ep.id ∈ st.unmonitored_episode_ids
    · simp [h1]
    · by_cases h2 : (ep.monitored : Prop)
      · by_cases h3 : ep.hasFile = false ∨ ep.episodeFileId = none
        · simp [h1, h2, h3]
        · by_cases h4 : fileMatches t ep.path = true
          · simp [h1, h2, h3, h4]
          · simp [h1, h2, h3, h4]
      · simp [h1, h2]
  · intro rk g m st
    constructor
    · simp only [mp_process_movie]
      repeat' split
      all_goals simp_all
    · intro hmon
      simp only [mp_process_movie]
      repeat' split
      all_goals simp_all

/-- Witness for C7's amended statement: the media_processors dry-run leaves
the unmonitored set of a monitored movie untouched. -/
theorem dry_run_no_call_same_decision_witness :
    (mp_process_movie true true ["group"] ⟨3, true, some "Movie-GROUP"⟩
        emptyRadarr).1.unmonitored_ids = emptyRadarr.unmonitored_ids :=
  (dry_run_no_call_same_decision.2.2.2.2 true ["group"]
    ⟨3, true, some "Movie-GROUP"⟩ emptyRadarr).2 rfl

/-! ## C8: idempotence across two runs -/

/-- C8 counterexample: when the first run's remote mutation fails, the unit
stays monitored-and-not-recorded, and the second run issues the mutation
again — two remote calls across the two runs, contradicting "at most one". -/
theorem failed_mutation_retried :
    ((process_movie false false ["group"] sampleMovie emptyRadarr).2.2 ++
      (process_movie false false ["group"] sampleMovie
        (process_movie false false ["group"] sampleMovie
          emptyRadarr).2.1).2.2) =
      [Effect.moviePut 2, Effect.moviePut 2] := by
  decide

/-- C8 amended: when every issued mutation is confirmed successful (and in
dry-run, where no call is issued at all), running the decision policy twice
on the same unit — the second run seeing the state the first one left —
issues at most one remote mutation in total. -/
theorem policy_idempotent_on_success :
    (∀ (dr : Bool) (t : List String) (item : MovieItem) (st : RadarrState),
       ((process_movie dr true t item st).2.2 ++
        (process_movie dr true t item
          (process_movie dr true t item st).2.1).2.2).length ≤ 1) ∧
    (∀ (dr : Bool) (t : List String) (ep : EpisodeR) (st : SonarrState),
       ((process_episode dr true t ep st).2.2 ++
        (process_episode dr true t ep
          (process_episode dr true t ep st).2.1).2.2).length ≤ 1) := by
  constructor
  · intro dr t item st
    simp only [process_movie_spec]
    by_cases h1 : item.id ∈ st.unmonitored_ids
    · simp [h1]
    · by_cases h2 : ¬ (item.monitored : Prop)
      · have h5 : item.id ∈ addIfAbsent item.id st.unmonitored_ids :=
          self_mem_addIfAbsent _ _
        simp [h1, h2, h5]
      · by_cases h3 : item.files.any (fileMatches t) = true
        · have h5 : item.id ∈ (addMovieUnmonitored
              (markMovieProcessed st item.id) item.id).unmonitored_ids :=
            self_mem_addIfAbsent _ _
          simp only [h1, h2, h3, if_pos, if_neg, if_true, if_false]
          simp [h1, h2, h3, h5]
          cases dr <;> simp
        · have h5 : ¬ item.id ∈ (markMovieProcessed st
              item.id).unmonitored_ids := h1
          simp [h1, h2, h3, h5]
  · intro dr t ep st
    simp only [process_episode_spec]
    by_cases h1 : ep.id ∈ st.unmonitored_episode_ids
    · simp [h1]
    · by_cases h2 : ¬ (ep.monitored : Prop)
      · have h5 : ep.id ∈ addIfAbsent ep.id st.unmonitored_episode_ids :=
          self_mem_addIfAbsent _ _
        simp [h1, h2, h5]
      · by_cases h3 : ep.hasFile = false ∨ ep.episodeFileId = none
        · have h5 : ¬ ep.id ∈ (markEpProcessed st
              ep.id).unmonitored_episode_ids := h1
          simp [h1, h2, h3, h5]
        · by_cases h4 : fileMatches t ep.path = true
          · have h5 : ep.id ∈ (addEpUnmonitored
                (markEpProcessed st ep.id) ep.id).unmonitored_episode_ids :=
              self_mem_addIfAbsent _ _
            simp [h1, h2, h3, h4, h5]
            cases dr <;> simp
          · have h5 : ¬ ep.id ∈ (markEpProcessed st
                ep.id).unmonitored_episode_ids := h1
            simp [h1, h2, h3, h4, h5]

/-! ## C2 and C3: the hierarchical rollup conditions -/

theorem process_episode_effects_shape (dr rk : Bool) (t : List String)
    (ep : EpisodeR) (st : SonarrState) :
    ∀ e ∈ (process_episode dr rk t ep st).2.2, e = Effect.episodePut ep.id := by
  simp only [process_episode]
  repeat' split
  all_goals intro e he
  all_goals simp_all

theorem episodePass_no_seasonPut (dr rk : Bool) (t : List String) (a b : Nat) :
    ∀ (eps : List EpisodeR) (st : SonarrState),
      ¬ Effect.seasonPut a b ∈ (episodePass dr rk t eps st).2.2
  | [], st => by simp [episodePass]
  | ep :: rest, st => by
    simp only [episodePass, List.mem_append]
    intro h
    rcases h with h | h
    · have := process_episode_effects_shape dr rk t ep st _ h
      simp at this
    · exact episodePass_no_seasonPut dr rk t a b rest _ h

theorem get_episodes_hasFile {l : List EpisodeR} {n : Nat} :
    ∀ e ∈ get_episodes l n, e.hasFile = true := by
  intro e he
  exact (List.mem_filter.mp he).2

theorem get_episodes_filter_self (l : List EpisodeR) (n : Nat) :
    (get_episodes l n).filter (fun e => e.hasFile) = get_episodes l n :=
  List.filter_eq_self.mpr get_episodes_hasFile

/-- C2 amended: during a scan, season `sn` of a series transitions
Monitored→Unmonitored (a season `PUT` is issued and succeeds) iff (a) it is
not already recorded in `unmonitored_seasons`, (b) it is monitored
upstream, (c) it has at least one episode with a file, (d) after this
season's episode pass every episode with a file is recorded in
`unmonitored[episode]`, AND — the gate the claim misses — the episode pass
newly unmonitored at least one episode of the season in this very run.
Stated for live mode with succeeding mutations. -/
theorem season_transition_iff (targets : List String) (series : SeriesR)
    (sn : SeasonInfo) (st : SonarrState) (hmem : sn ∈ series.seasons) :
    (Effect.seasonPut series.id sn.seasonNumber ∈
       (seasonProcessOne false true targets series sn st).2.2.2) ↔
    ((¬ sn.seasonNumber ∈ lookupSeasons st.unmonitored_seasons series.id) ∧
     sn.monitored = true ∧
     (¬ get_episodes series.episodes sn.seasonNumber = []) ∧
     (∀ ep ∈ get_episodes series.episodes sn.seasonNumber,
        ep.id ∈ (episodePass false true targets
            (get_episodes series.episodes sn.seasonNumber)
            st).2.1.unmonitored_episode_ids) ∧
     0 < (episodePass false true targets
         (get_episodes series.episodes sn.seasonNumber) st).1) := by
  simp only [seasonProcessOne]
  by_cases c1 : sn.seasonNumber ∈ lookupSeasons st.unmonitored_seasons series.id
  · simp [c1]
  · by_cases c2 : (sn.monitored : Prop)
    · by_cases c3 : get_episodes series.episodes sn.seasonNumber = []
      · simp [c1, c2, c3]
      · by_cases c5 : 0 < (episodePass false true targets
            (get_episodes series.episodes sn.seasonNumber) st).1
        · simp only [if_neg c1, if_neg (not_not_intro c2), if_neg c3,
            if_pos c5]
          simp only [check_and_unmonitor_season, get_episodes_filter_self,
            if_neg c3]
          by_cases c4 : ∀ ep ∈ get_episodes series.episodes sn.seasonNumber,
              ep.id ∈ (episodePass false true targets
                (get_episodes series.episodes sn.seasonNumber)
                st).2.1.unmonitored_episode_ids
          · have hlen : ((get_episodes series.episodes sn.seasonNumber).filter
                (fun e => e.id ∈ (episodePass false true targets
                  (get_episodes series.episodes sn.seasonNumber)
                  st).2.1.unmonitored_episode_ids)).length =
                (get_episodes series.episodes sn.seasonNumber).length := by
              rw [List.filter_eq_self.mpr]
              intro e he
              exact decide_eq_true (c4 e he)
            have hpos : 0 < ((get_episodes series.episodes
                sn.seasonNumber).filter
                (fun e => e.id ∈ (episodePass false true targets
                  (get_episodes series.episodes sn.seasonNumber)
                  st).2.1.unmonitored_episode_ids)).length := by
              rw [hlen]
              exact List.length_pos.mpr c3
            simp only [if_pos (And.intro hlen hpos)]
            have hany : series.seasons.any
                (fun s => s.seasonNumber == sn.seasonNumber) = true :=
              List.any_eq_true.mpr ⟨sn, hmem, by simp⟩
            simp only [unmonitor_season, hany, Bool.not_true,
              if_neg (by simp : ¬ False)]
            simp [c1, c2, c3, c5, hany]
            exact c4
          · have hne : ¬ (((get_episodes series.episodes
                sn.seasonNumber).filter
                (fun e => e.id ∈ (episodePass false true targets
                  (get_episodes series.episodes sn.seasonNumber)
                  st).2.1.unmonitored_episode_ids)).length =
                (get_episodes series.episodes sn.seasonNumber).length ∧
                0 < ((get_episodes series.episodes sn.seasonNumber).filter
                (fun e => e.id ∈ (episodePass false true targets
                  (get_episodes series.episodes sn.seasonNumber)
                  st).2.1.unmonitored_episode_ids)).length) := by
              intro hc
              apply c4
              intro e he
              have := List.filter_length_eq_length.mp hc.1 e he
              exact of_decide_eq_true this
            simp only [if_neg hne]
            simp [c4, episodePass_no_seasonPut]
        · simp only [if_neg c1, if_neg (not_not_intro c2), if_neg c3,
            if_neg c5]
          simp [c5, episodePass_no_seasonPut]
    · simp [c1, c2]

/-- Witness for C2's amended statement: a fresh matching episode is newly
unmonitored, so its singleton season satisfies all conditions and the
season `PUT` is issued. -/
theorem season_transition_iff_witness :
    Effect.seasonPut 7 1 ∈
      (seasonProcessOne false true ["group"] sampleSeries ⟨1, true⟩
        emptySonarr).2.2.2 :=
  (season_transition_iff ["group"] sampleSeries ⟨1, true⟩ emptySonarr
    (by decide)).mpr (by decide)

/-- C2 counterexample: every episode with a file in the season is already in
`unmonitored[episode]`, the season is monitored upstream and not recorded —
the claim's four conditions all hold — yet the scan issues no season
mutation, because no episode was newly unmonitored in this run. -/
theorem season_rollup_needs_new_episode :
    (¬ 1 ∈ lookupSeasons stEpisodeRecorded.unmonitored_seasons 7) ∧
    sampleSeries.seasons = [⟨1, true⟩] ∧
    (¬ get_episodes sampleSeries.episodes 1 = []) ∧
    (∀ ep ∈ get_episodes sampleSeries.episodes 1,
       ep.id ∈ stEpisodeRecorded.unmonitored_episode_ids) ∧
    ¬ Effect.seasonPut 7 1 ∈ (process_series_hierarchical false true ["group"]
        sampleSeries stEpisodeRecorded).2.2 := by
  refine ⟨?_, ?_, ?_, ?_, ?_⟩ <;> decide

/-- C3 amended: at the end of a scan over a series, the series transitions
Monitored→Unmonitored (a series `PUT` is issued and succeeds) iff at least
one season was newly unmonitored in this very run (the gate the claim
misses), at least one season other than season 0 has episodes with files,
every such season is recorded in the series' `unmonitored_seasons`, and
that set is non-empty.  Whether the series is already recorded in
`unmonitored_ids` is NOT consulted.  Stated for live mode with succeeding
mutations. -/
theorem series_rollup_iff (series : SeriesR) (newSeasons : Nat)
    (st : SonarrState) :
    (Effect.seriesPut series.id ∈
       (seriesRollupStage false true series newSeasons st).2.2) ↔
    (0 < newSeasons ∧ (¬ seasonsWithFiles series = []) ∧
     (∀ n ∈ seasonsWithFiles series,
        n ∈ lookupSeasons st.unmonitored_seasons series.id) ∧
     ¬ lookupSeasons st.unmonitored_seasons series.id = []) := by
  simp only [seriesRollupStage]
  by_cases c0 : 0 < newSeasons
  · simp only [if_pos c0]
    simp only [check_and_unmonitor_full_series]
    by_cases c1 : series.seasons = []
    · have hswf : seasonsWithFiles series = [] := by
        simp [seasonsWithFiles, c1]
      simp [c1, hswf]
    · simp only [if_neg c1, ensureSeriesKey, lookupSeasons_ensureKey]
      by_cases c2 : seasonsWithFiles series = []
      · simp [c2]
      · simp only [if_neg c2]
        by_cases c3 : ((seasonsWithFiles series).all
            (fun n => n ∈ lookupSeasons st.unmonitored_seasons series.id) :
              Bool) = true ∧
            ¬ lookupSeasons st.unmonitored_seasons series.id = []
        · simp only [if_pos c3, unmonitor_series_keep_seasons]
          simp only [Bool.false_eq_true, if_false, if_true]
          constructor
          · intro _
            refine ⟨c0, c2, ?_, c3.2⟩
            intro n hn
            exact of_decide_eq_true (List.all_eq_true.mp c3.1 n hn)
          · intro _
            simp
        · simp only [if_neg c3]
          constructor
          · intro h
            simp at h
          · intro h
            exact absurd ⟨List.all_eq_true.mpr
              (fun n hn => decide_eq_true (h.2.2.1 n hn)), h.2.2.2⟩ c3
  · simp only [if_neg c0]
    constructor
    · intro h
      simp at h
    · intro h
      exact absurd h.1 c0

/-- Witness for C3's amended statement: after this scan newly unmonitored
season 1 — the only file-bearing season — is recorded, so the series `PUT`
is issued. -/
theorem series_rollup_iff_witness :
    Effect.seriesPut 7 ∈
      (seriesRollupStage false true sampleSeries 1 stSeasonRecorded).2.2 :=
  (series_rollup_iff sampleSeries 1 stSeasonRecorded).mpr (by decide)

/-- C3 counterexample: the series is not recorded unmonitored, its only
file-bearing season is recorded in `unmonitored_seasons` and that set is
non-empty — the claim's four conditions all hold — yet the scan issues no
series mutation, because no season newly transitioned in this run. -/
theorem series_rollup_not_rederived :
    (¬ 7 ∈ stSeasonRecorded.unmonitored_ids) ∧
    seasonsWithFiles sampleSeries = [1] ∧
    (∀ n ∈ seasonsWithFiles sampleSeries,
       n ∈ lookupSeasons stSeasonRecorded.unmonitored_seasons 7) ∧
    (¬ lookupSeasons stSeasonRecorded.unmonitored_seasons 7 = []) ∧
    ¬ Effect.seriesPut 7 ∈ (process_series_hierarchical false true ["group"]
        sampleSeries stSeasonRecorded).2.2 := by
  refine ⟨?_, ?_, ?_, ?_, ?_⟩ <;> decide

/-! ## C9: growth of the unmonitored collections -/

theorem sonarrGrows_refl (s : SonarrState) : sonarrGrows s s :=
  ⟨fun _ h => h, fun _ h => h, fun _ _ h => h⟩

theorem sonarrGrows_trans {a b c : SonarrState}
    (h1 : sonarrGrows a b) (h2 : sonarrGrows b c) : sonarrGrows a c :=
  ⟨fun x h => h2.1 x (h1.1 x h),
   fun x h => h2.2.1 x (h1.2.1 x h),
   fun sid n h => h2.2.2 sid n (h1.2.2 sid n h)⟩

theorem recordSeason_grows (st : SonarrState) (sid n : Nat) :
    sonarrGrows st (recordSeason st sid n) :=
  ⟨fun _ h => h, fun _ h => h,
   fun _ _ h => mem_lookupSeasons_addSeasonNum sid n h⟩

theorem ensureSeriesKey_grows (st : SonarrState) (sid : Nat) :
    sonarrGrows st (ensureSeriesKey st sid) :=
  ⟨fun _ h => h, fun _ h => h,
   fun sid2 k h => by
     show k ∈ lookupSeasons (ensureKey st.unmonitored_seasons sid) sid2
     rw [lookupSeasons_ensureKey]
     exact h⟩

theorem process_episode_grows (dr rk : Bool) (t : List String)
    (ep : EpisodeR) (st : SonarrState) :
    sonarrGrows st (process_episode dr rk t ep st).2.1 := by
  simp only [process_episode]
  repeat' split
  all_goals
    first
      | exact ⟨fun x h => h, fun x h => h, fun a b h => h⟩
      | exact ⟨fun x h => h, fun x h => mem_addIfAbsent_of_mem h,
          fun a b h => h⟩

theorem episodePass_grows (dr rk : Bool) (t : List String) :
    ∀ (eps : List EpisodeR) (st : SonarrState),
      sonarrGrows st (episodePass dr rk t eps st).2.1
  | [], st => by
    simp only [episodePass]
    exact sonarrGrows_refl st
  | ep :: rest, st => by
    simp only [episodePass]
    exact sonarrGrows_trans (process_episode_grows dr rk t ep st)
      (episodePass_grows dr rk t rest _)

theorem unmonitor_season_grows (dr rk : Bool) (series : SeriesR) (n : Nat)
    (st : SonarrState) :
    sonarrGrows st (unmonitor_season dr rk series n st).2.1 := by
  simp only [unmonitor_season]
  repeat' split
  all_goals
    first
      | exact ⟨fun x h => h, fun x h => h, fun a b h => h⟩
      | exact recordSeason_grows st series.id n

theorem check_season_grows (dr rk : Bool) (series : SeriesR) (n : Nat)
    (st : SonarrState) :
    sonarrGrows st (check_and_unmonitor_season dr rk series n st).2.1 := by
  simp only [check_and_unmonitor_season]
  repeat' split
  all_goals
    first
      | exact ⟨fun x h => h, fun x h => h, fun a b h => h⟩
      | exact unmonitor_season_grows dr rk series n st

theorem unmonitor_series_grows (dr rk : Bool) (series : SeriesR)
    (st : SonarrState) :
    sonarrGrows st (unmonitor_series_keep_seasons dr rk series st).2.1 := by
  simp only [unmonitor_series_keep_seasons]
  repeat' split
  all_goals
    first
      | exact ⟨fun x h => h, fun x h => h, fun a b h => h⟩
      | exact ⟨fun x h => mem_addIfAbsent_of_mem h, fun x h => h,
          fun a b h => h⟩

theorem seasonProcessOne_grows (dr rk : Bool) (t : List String)
    (series : SeriesR) (sn : SeasonInfo) (st : SonarrState) :
    sonarrGrows st (seasonProcessOne dr rk t series sn st).2.2.1 := by
  simp only [seasonProcessOne]
  repeat' split
  all_goals
    first
      | exact ⟨fun x h => h, fun x h => h, fun a b h => h⟩
      | exact recordSeason_grows st series.id sn.seasonNumber
      | exact sonarrGrows_trans (episodePass_grows dr rk t _ st)
          (check_season_grows dr rk series sn.seasonNumber _)
      | exact episodePass_grows dr rk t _ st

theorem seasonsLoop_grows (dr rk : Bool) (t : List String) (series : SeriesR) :
    ∀ (l : List SeasonInfo) (st : SonarrState),
      sonarrGrows st (seasonsLoop dr rk t series l st).2.2.1
  | [], st => by
    simp only [seasonsLoop]
    exact sonarrGrows_refl st
  | sn :: rest, st => by
    simp only [seasonsLoop]
    exact sonarrGrows_trans (seasonProcessOne_grows dr rk t series sn st)
      (seasonsLoop_grows dr rk t series rest _)

theorem check_full_grows (dr rk : Bool) (series : SeriesR) (st : SonarrState) :
    sonarrGrows st (check_and_unmonitor_full_series dr rk series st).2.1 := by
  simp only [check_and_unmonitor_full_series]
  repeat' split
  all_goals
    first
      | exact ⟨fun x h => h, fun x h => h, fun a b h => h⟩
      | exact ensureSeriesKey_grows st series.id
      | exact sonarrGrows_trans (ensureSeriesKey_grows st series.id)
          (unmonitor_series_grows dr rk series _)

theorem rollupStage_grows (dr rk : Bool) (series : SeriesR) (k : Nat)
    (st : SonarrState) :
    sonarrGrows st (seriesRollupStage dr rk series k st).2.1 := by
  simp only [seriesRollupStage]
  split
  · exact check_full_grows dr rk series st
  · exact sonarrGrows_refl st

theorem hierarchical_grows (dr rk : Bool) (t : List String)
    (series : SeriesR) (st : SonarrState) :
    sonarrGrows st (process_series_hierarchical dr rk t series st).2.1 := by
  simp only [process_series_hierarchical]
  split
  · exact ⟨fun x h => h, fun x h => h,
      (ensureSeriesKey_grows st series.id).2.2⟩
  · exact sonarrGrows_trans (ensureSeriesKey_grows st series.id)
      (sonarrGrows_trans (seasonsLoop_grows dr rk t series series.seasons _)
        (sonarrGrows_trans (rollupStage_grows dr rk series _ _)
          ⟨fun x h => h, fun x h => h, fun a b h => h⟩))

theorem movieFileLoop_unm_mono (dr rk : Bool) (t : List String) (mid : Nat) :
    ∀ (files : List (Option String)) (st : RadarrState) (x : Nat),
      x ∈ st.unmonitored_ids →
      x ∈ (movieFileLoop dr rk t mid files st).2.1.unmonitored_ids
  | [], _, _, h => h
  | f :: rest, st, x, h => by
    cases f with
    | none =>
      simp only [movieFileLoop]
      exact movieFileLoop_unm_mono dr rk t mid rest st x h
    | some p =>
      cases htr : truthy (get_release_group p) with
      | none =>
        simp only [movieFileLoop, htr]
        exact movieFileLoop_unm_mono dr rk t mid rest st x h
      | some g =>
        by_cases hm : strLower g ∈ t
        · simp only [movieFileLoop, htr, if_pos hm]
          cases dr with
          | true => exact mem_addIfAbsent_of_mem h
          | false =>
            cases rk with
            | true => exact mem_addIfAbsent_of_mem h
            | false =>
              exact movieFileLoop_unm_mono false false t mid rest
                (markMovieProcessed st mid) x h
        · simp only [movieFileLoop, htr, if_neg hm]
          exact movieFileLoop_unm_mono dr rk t mid rest st x h

theorem fetch_new_media_unm_mono (ls : Nat) :
    ∀ (movies : List MovieItem) (st : RadarrState) (x : Nat),
      x ∈ st.unmonitored_ids →
      x ∈ (fetch_new_media_radarr ls movies st).2.unmonitored_ids
  | [], _, _, h => h
  | item :: rest, st, x, h => by
    simp only [fetch_new_media_radarr]
    split
    · exact fetch_new_media_unm_mono ls rest st x h
    · split
      · exact fetch_new_media_unm_mono ls rest _ x (mem_addIfAbsent_of_mem h)
      · exact fetch_new_media_unm_mono ls rest st x h

/-- C9: during a scan the unmonitored collections only grow — no operation
of the pipeline (the decision policy at movie and episode level, the
monitoring-mode fetch filter, the whole hierarchical series pass with its
season and series rollups) ever removes an identifier from an
`unmonitored` collection — and the force-full-scan branch of
`process_media` clears exactly the three `processed` lists, leaving every
`unmonitored` collection untouched. -/
theorem unmonitored_only_grows :
    (∀ (dr rk : Bool) (t : List String) (item : MovieItem) (st : RadarrState),
       ∀ x ∈ st.unmonitored_ids,
         x ∈ (process_movie dr rk t item st).2.1.unmonitored_ids) ∧
    (∀ (ls : Nat) (movies : List MovieItem) (st : RadarrState),
       ∀ x ∈ st.unmonitored_ids,
         x ∈ (fetch_new_media_radarr ls movies st).2.unmonitored_ids) ∧
    (∀ (dr rk : Bool) (t : List String) (ep : EpisodeR) (st : SonarrState),
       sonarrGrows st (process_episode dr rk t ep st).2.1) ∧
    (∀ (dr rk : Bool) (t : List String) (series : SeriesR) (st : SonarrState),
       sonarrGrows st (process_series_hierarchical dr rk t series st).2.1) ∧
    (∀ st : AppState,
       (force_full_scan_clear st).radarr.unmonitored_ids =
         st.radarr.unmonitored_ids ∧
       (force_full_scan_clear st).sonarr.unmonitored_ids =
         st.sonarr.unmonitored_ids ∧
       (force_full_scan_clear st).sonarr.unmonitored_episode_ids =
         st.sonarr.unmonitored_episode_ids ∧
       (force_full_scan_clear st).sonarr.unmonitored_seasons =
         st.sonarr.unmonitored_seasons ∧
       (force_full_scan_clear st).radarr.processed_ids = [] ∧
       (force_full_scan_clear st).sonarr.processed_ids = [] ∧
       (force_full_scan_clear st).sonarr.processed_episode_ids = []) := by
  refine ⟨?_, ?_, ?_, ?_, ?_⟩
  · intro dr rk t item st x hx
    simp only [process_movie]
    split
    · exact hx
    · split
      · exact mem_addIfAbsent_of_mem hx
      · exact movieFileLoop_unm_mono dr rk t item.id item.files st x hx
  · intro ls movies st x hx
    exact fetch_new_media_unm_mono ls movies st x hx
  · intro dr rk t ep st
    exact process_episode_grows dr rk t ep st
  · intro dr rk t series st
    exact hierarchical_grows dr rk t series st
  · intro st
    exact ⟨rfl, rfl, rfl, rfl, rfl, rfl, rfl⟩

/-- Witness for C9 at a concrete state: an id already unmonitored is still
there after a movie is processed. -/
theorem unmonitored_only_grows_witness :
    5 ∈ (process_movie false true ["group"] sampleMovie
        ⟨[], [5]⟩).2.1.unmonitored_ids :=
  unmonitored_only_grows.1 false true ["group"] sampleMovie ⟨[], [5]⟩ 5
    (by decide)

/-! ## C10: the id collections stay duplicate-free -/

theorem movieFileLoop_radarrNodup (dr rk : Bool) (t : List String)
    (mid : Nat) :
    ∀ (files : List (Option String)) (st : RadarrState),
      radarrNodup st → radarrNodup (movieFileLoop dr rk t mid files st).2.1
  | [], st, h => ⟨nodup_addIfAbsent h.1, h.2⟩
  | f :: rest, st, h => by
    cases f with
    | none =>
      simp only [movieFileLoop]
      exact movieFileLoop_radarrNodup dr rk t mid rest st h
    | some p =>
      cases htr : truthy (get_release_group p) with
      | none =>
        simp only [movieFileLoop, htr]
        exact movieFileLoop_radarrNodup dr rk t mid rest st h
      | some g =>
        by_cases hm : strLower g ∈ t
        · simp only [movieFileLoop, htr, if_pos hm]
          cases dr with
          | true => exact ⟨nodup_addIfAbsent h.1, nodup_addIfAbsent h.2⟩
          | false =>
            cases rk with
            | true => exact ⟨nodup_addIfAbsent h.1, nodup_addIfAbsent h.2⟩
            | false =>
              exact movieFileLoop_radarrNodup false false t mid rest
                (markMovieProcessed st mid) ⟨nodup_addIfAbsent h.1, h.2⟩
        · simp only [movieFileLoop, htr, if_neg hm]
          exact movieFileLoop_radarrNodup dr rk t mid rest st h

theorem process_movie_radarrNodup (dr rk : Bool) (t : List String)
    (item : MovieItem) (st : RadarrState) (h : radarrNodup st) :
    radarrNodup (process_movie dr rk t item st).2.1 := by
  simp only [process_movie]
  split
  · exact h
  · split
    · exact ⟨nodup_addIfAbsent h.1, nodup_addIfAbsent h.2⟩
    · exact movieFileLoop_radarrNodup dr rk t item.id item.files st h

theorem process_episode_sonarrNodup (dr rk : Bool) (t : List String)
    (ep : EpisodeR) (st : SonarrState) (h : sonarrNodup st) :
    sonarrNodup (process_episode dr rk t ep st).2.1 := by
  simp only [process_episode]
  repeat' split
  all_goals
    first
      | exact h
      | exact ⟨h.1, nodup_addIfAbsent h.2.1, h.2.2.1,
          nodup_addIfAbsent h.2.2.2.1, h.2.2.2.2⟩
      | exact ⟨h.1, nodup_addIfAbsent h.2.1, h.2.2.1, h.2.2.2.1, h.2.2.2.2⟩

theorem unmonitor_season_sonarrNodup (dr rk : Bool) (series : SeriesR)
    (n : Nat) (st : SonarrState) (h : sonarrNodup st) :
    sonarrNodup (unmonitor_season dr rk series n st).2.1 := by
  simp only [unmonitor_season]
  repeat' split
  all_goals
    first
      | exact h
      | exact ⟨h.1, h.2.1, h.2.2.1, h.2.2.2.1,
          seasonsNodup_addSeasonNum series.id n h.2.2.2.2⟩

theorem unmonitor_series_sonarrNodup (dr rk : Bool) (series : SeriesR)
    (st : SonarrState) (h : sonarrNodup st) :
    sonarrNodup (unmonitor_series_keep_seasons dr rk series st).2.1 := by
  simp only [unmonitor_series_keep_seasons]
  repeat' split
  all_goals
    first
      | exact h
      | exact ⟨h.1, h.2.1, nodup_addIfAbsent h.2.2.1, h.2.2.2.1, h.2.2.2.2⟩

theorem applyOp_nodup (st : AppState) (op : AppOp) (h : stateNodup st) :
    stateNodup (applyOp st op) := by
  cases op with
  | opMovie dr rk t item =>
    exact ⟨process_movie_radarrNodup dr rk t item st.radarr h.1, h.2⟩
  | opEpisode dr rk t ep =>
    exact ⟨h.1, process_episode_sonarrNodup dr rk t ep st.sonarr h.2⟩
  | opSeason dr rk series n =>
    exact ⟨h.1, unmonitor_season_sonarrNodup dr rk series n st.sonarr h.2⟩
  | opSeries dr rk series =>
    exact ⟨h.1, unmonitor_series_sonarrNodup dr rk series st.sonarr h.2⟩

/-- C10: under sequential execution, any sequence of `process_movie`,
`process_episode`, `unmonitor_season` and `unmonitor_series_keep_seasons`
calls preserves duplicate-freeness of every id collection of the state —
the processed ids, the unmonitored ids, and each per-series list of
unmonitored season numbers (whose series keys also stay unique).  Every
append in these functions is guarded by a membership test. -/
theorem id_lists_stay_duplicate_free :
    ∀ (ops : List AppOp) (st : AppState),
      stateNodup st → stateNodup (runOps ops st)
  | [], _, h => h
  | op :: rest, st, h =>
    id_lists_stay_duplicate_free rest (applyOp st op) (applyOp_nodup st op h)

/-- Witness for C10: a concrete sequence of all four operations from the
empty state. -/
theorem id_lists_stay_duplicate_free_witness :
    stateNodup (runOps
      [AppOp.opMovie false true ["group"] sampleMovie,
       AppOp.opEpisode false true ["group"] sampleEpisode,
       AppOp.opSeason false true sampleSeries 1,
       AppOp.opSeries false true sampleSeries]
      ⟨emptyRadarr, emptySonarr⟩) :=
  id_lists_stay_duplicate_free
    [AppOp.opMovie false true ["group"] sampleMovie,
     AppOp.opEpisode false true ["group"] sampleEpisode,
     AppOp.opSeason false true sampleSeries 1,
     AppOp.opSeries false true sampleSeries]
    ⟨emptyRadarr, emptySonarr⟩
    (by simp [stateNodup, radarrNodup, sonarrNodup, seasonsNodup,
      emptyRadarr, emptySonarr])
